import Mathlib

/-!
Shallow embedding of the HA-Aviation-Weather integration
(custom_components/av_weather) in Lean 4, for checking its
natural-language specification against the code.

Modelling conventions:
* Python JSON values that the code actually inspects are modelled by
  `PyVal`: `None`, strings, numbers (as `Int`; the code only passes
  numbers through, never computes with them), the `clouds` list of
  `{cover, base}` objects, and lists of strings (the formatted
  `cloud_coverage` attribute).
* A provider record (a Python dict) is an association list
  `Record = List (String × PyVal)`; `Record.get` is `dict.get(key)`
  (first binding wins, `None` when absent), `Record.getD` is
  `dict.get(key, default)`.
* The ordered attribute dict `_attr_extra_state_attributes` is an
  association list written by `setAttr` (Python dict item assignment:
  overwrite in place if the key exists, append otherwise).
* External datetime helpers (`homeassistant.util.dt.parse_datetime`,
  `datetime.fromtimestamp`) are parameters `parseDT : String → Option
  String` and `fromTS : Int → Option String`; `none` covers both a
  parse failure and a raised `ValueError`/`TypeError` (the code treats
  the two identically). Applying them to a non-string / non-number
  raises `TypeError` in Python, which the code catches and resolves to
  the raw value; the embedding does the same.
* Logging is ignored; a logged warning that ends an operation is
  modelled by an explicit result constructor.
-/

/-- A Python `clouds` list element `{cover, base}` (sensor.py line 256). -/
structure Cloud where
  cover : Option String
  base : Option Int
  deriving DecidableEq, Repr

/-- The Python values the integration reads from provider records or
writes into state attributes. -/
inductive PyVal where
  | pynone : PyVal
  | pystr : String → PyVal
  | pyint : Int → PyVal
  | pyclouds : List Cloud → PyVal
  | pystrs : List String → PyVal
  deriving DecidableEq, Repr

open PyVal

/-- Python truthiness of the values above: `None`, `""`, `0`, `[]` are
falsy, everything else truthy. -/
def PyVal.truthy : PyVal → Bool
  | pynone => false
  | pystr s => !s.isEmpty
  | pyint n => n != 0
  | pyclouds cs => !cs.isEmpty
  | pystrs xs => !xs.isEmpty

/-- A raw station record: a JSON object from the provider, as a Python
dict (association list; dict keys are unique, the first binding wins). -/
abbrev Record := List (String × PyVal)

/-- Python `record.get(k)`: the value bound to `k`, `None` when absent. -/
def Record.get (r : Record) (k : String) : PyVal :=
  match r.find? (fun p => p.1 == k) with
  | some p => p.2
  | none => pynone

/-- Python `record.get(k, default)`. -/
def Record.getD (r : Record) (k : String) (d : PyVal) : PyVal :=
  match r.find? (fun p => p.1 == k) with
  | some p => p.2
  | none => d

/-- Ordered attribute mapping (`_attr_extra_state_attributes`). -/
abbrev Attrs := List (String × PyVal)

/-- Python dict item assignment `m[k] = v`: overwrite in place when the
key exists (dict keys are unique, so updating the first occurrence is
exact), append otherwise. -/
def setAttr : Attrs → String → PyVal → Attrs
  | [], k, v => [(k, v)]
  | p :: ps, k, v => if p.1 == k then (p.1, v) :: ps else p :: setAttr ps k v

/-- Read an attribute back out of the mapping (`m.get(k)` as an
`Option`, to distinguish an absent key from a `None` value). -/
def lookupAttr : Attrs → String → Option PyVal
  | [], _ => none
  | p :: ps, k => if p.1 == k then some p.2 else lookupAttr ps k

theorem lookupAttr_setAttr_self (m : Attrs) (k : String) (v : PyVal) :
    lookupAttr (setAttr m k v) k = some v := by
  induction m with
  | nil => simp [setAttr, lookupAttr]
  | cons p ps ih =>
    by_cases hp : p.1 = k
    · simp [setAttr, lookupAttr, hp]
    · simp [setAttr, lookupAttr, hp, ih]

theorem lookupAttr_setAttr_ne (m : Attrs) (k k' : String) (v : PyVal)
    (h : k' ≠ k) :
    lookupAttr (setAttr m k v) k' = lookupAttr m k' := by
  have hk : ¬(k = k') := fun he => h he.symm
  induction m with
  | nil => simp [setAttr, lookupAttr, hk]
  | cons p ps ih =>
    by_cases hp : p.1 = k
    · have hp' : ¬(p.1 = k') := by rw [hp]; exact hk
      simp only [setAttr, hp, if_pos, beq_self_eq_true, if_true]
      simp [lookupAttr, hp', hp, hk]
    · by_cases hq : p.1 = k'
      · simp [setAttr, lookupAttr, hp, hq, h]
      · simp [setAttr, lookupAttr, hp, hq, ih]

/-- Python `str.upper()` on ASCII airport codes, character-wise (kept
kernel-computable; `String.toUpper` does the same on these inputs). -/
def strUpper (s : String) : String := ⟨s.data.map Char.toUpper⟩

/-- The two feed types (const.py: `FEED_METAR`, `FEED_TAF`). -/
inductive FeedType where
  | metar : FeedType
  | taf : FeedType
  deriving DecidableEq, Repr

/-- The mutable state of one sensor entity (one (airport, feed) cell):
`_data`, `_attr_native_value`, `_attr_extra_state_attributes`,
`_attr_icon`. -/
structure SensorState where
  data : Option Record
  nativeValue : PyVal
  attrs : Attrs
  icon : String
  deriving DecidableEq, Repr

/-- `AvWeatherSensor.available`: `self._data is not None`. -/
def SensorState.available (s : SensorState) : Bool :=
  s.data.isSome

/-- The icon set in each sensor's `__init__` (sensor.py lines 190, 289). -/
def defaultIcon : FeedType → String
  | .metar => "mdi:weather-partly-cloudy"
  | .taf => "mdi:weather-cloudy-clock"

/-- Icon selection from `fltCat` (sensor.py lines 213-223). -/
def metarIcon (fc : PyVal) : String :=
  if fc == pystr "VFR" then "mdi:weather-sunny"
  else if fc == pystr "MVFR" then "mdi:weather-partly-cloudy"
  else if fc == pystr "IFR" then "mdi:weather-cloudy"
  else if fc == pystr "LIFR" then "mdi:weather-fog"
  else "mdi:weather-partly-cloudy"

/-- The f-string of sensor.py line 256:
`f'{c.get("cover", "Unknown")} at {c.get("base", "N/A")} ft AGL'`. -/
def Cloud.display (c : Cloud) : String :=
  (match c.cover with | some s => s | none => "Unknown") ++ " at " ++
  (match c.base with | some b => toString b | none => "N/A") ++ " ft AGL"

/-- The `observation_time` block of `MetarSensor._update_state`
(sensor.py lines 226-237): when `reportTime` is truthy, try to parse it
(a non-string raises `TypeError`, caught, raw value kept; an
unparsable string yields `None` from `parse_datetime`, raw string
kept). -/
def metarObsAttrs (parseDT : String → Option String) (r : Record) : Attrs :=
  let ot := r.get "reportTime"
  if ot.truthy then
    match ot with
    | pystr s =>
      match parseDT s with
      | some iso => [("observation_time", pystr iso)]
      | none => [("observation_time", pystr s)]
    | v => [("observation_time", v)]
  else []

/-- The "Cloud coverage" block (sensor.py lines 253-257):
`clouds = self._data.get("clouds", [])` then `if clouds:`; only a list
value is iterable there, so only `pyclouds` is modelled as such. -/
def cloudBlock (r : Record) (a : Attrs) : Attrs :=
  match r.getD "clouds" (pyclouds []) with
  | pyclouds cs =>
    if cs.isEmpty then a
    else setAttr a "cloud_coverage" (pystrs (cs.map Cloud.display))
  | _ => a

/-- The "Weather phenomena" block (sensor.py lines 260-262). -/
def weatherBlock (r : Record) (a : Attrs) : Attrs :=
  if (r.get "wxString").truthy then setAttr a "weather" (r.get "wxString") else a

/-- The latitude/longitude block, identical in both subclasses
(sensor.py lines 265-267 and 340-342); the guard is `is not None`, not
truthiness. -/
def latlonBlock (r : Record) (a : Attrs) : Attrs :=
  if r.get "lat" != pynone && r.get "lon" != pynone then
    setAttr (setAttr a "latitude" (r.get "lat")) "longitude" (r.get "lon")
  else a

/-- The elevation block, identical in both subclasses (sensor.py lines
270-271 and 345-346). -/
def elevBlock (r : Record) (a : Attrs) : Attrs :=
  if r.get "elev" != pynone then setAttr a "elevation_m" (r.get "elev") else a

/-- The "Basic attributes" assignments (sensor.py lines 240-250). -/
def metarBasicAttrs (r : Record) (a : Attrs) : Attrs :=
  let a := setAttr a "raw_report" (r.get "rawOb")
  let a := setAttr a "station_id" (r.get "icaoId")
  let a := setAttr a "temperature_c" (r.get "temp")
  let a := setAttr a "dewpoint_c" (r.get "dewp")
  let a := setAttr a "wind_speed_kts" (r.get "wspd")
  let a := setAttr a "wind_gust_kts" (r.get "wgst")
  let a := setAttr a "wind_direction_deg" (r.get "wdir")
  let a := setAttr a "visibility_mi" (r.get "visib")
  let a := setAttr a "altimeter_in_hg" (r.get "altim")
  let a := setAttr a "sea_level_pressure_mb" pynone
  setAttr a "flight_category" (r.get "fltCat")

/-- The attribute dict built by `MetarSensor._update_state` for a
truthy record (sensor.py lines 226-271). -/
def metarAttrs (parseDT : String → Option String) (r : Record) : Attrs :=
  elevBlock r (latlonBlock r (weatherBlock r (cloudBlock r
    (metarBasicAttrs r (metarObsAttrs parseDT r)))))

/-- `MetarSensor._update_state` (sensor.py lines 202-271).  `if not
self._data:` is Python truthiness: both `None` and an empty dict take
the absent branch. -/
def metarUpdateState (parseDT : String → Option String) (s : SensorState) : SensorState :=
  match s.data with
  | none =>
    { s with nativeValue := pynone, attrs := [], icon := "mdi:weather-partly-cloudy" }
  | some r =>
    if r.isEmpty then
      { s with nativeValue := pynone, attrs := [], icon := "mdi:weather-partly-cloudy" }
    else
      { s with nativeValue := r.get "rawOb",
               icon := metarIcon (r.get "fltCat"),
               attrs := metarAttrs parseDT r }

/-- The conversion block shared by `validTimeFrom`/`validTimeTo`
(sensor.py lines 319-337): when the value is truthy, convert the epoch
number to an ISO string (`datetime.fromtimestamp`); a non-number
raises `TypeError` and an out-of-range number raises, both caught,
keeping the raw value. -/
def tafTimeAttr (fromTS : Int → Option String) (a : Attrs) (key : String) (v : PyVal) : Attrs :=
  if v.truthy then
    match v with
    | pyint n =>
      match fromTS n with
      | some iso => setAttr a key (pystr iso)
      | none => setAttr a key v
    | _ => setAttr a key v
  else a

/-- The issue-time block (sensor.py lines 315-317). -/
def issueBlock (r : Record) (a : Attrs) : Attrs :=
  if (r.get "issueTime").truthy then setAttr a "issue_time" (r.get "issueTime") else a

/-- The attribute dict built by `TafSensor._update_state` for a truthy
record (sensor.py lines 308-346). -/
def tafAttrs (fromTS : Int → Option String) (r : Record) : Attrs :=
  let a : Attrs := [("raw_forecast", r.get "rawTAF"), ("station_id", r.get "icaoId")]
  let a := issueBlock r a
  let a := tafTimeAttr fromTS a "valid_time_from" (r.get "validTimeFrom")
  let a := tafTimeAttr fromTS a "valid_time_to" (r.get "validTimeTo")
  elevBlock r (latlonBlock r a)

/-- `TafSensor._update_state` (sensor.py lines 301-346).  The TAF
sensor never touches its icon. -/
def tafUpdateState (fromTS : Int → Option String) (s : SensorState) : SensorState :=
  match s.data with
  | none => { s with nativeValue := pynone, attrs := [] }
  | some r =>
    if r.isEmpty then
      { s with nativeValue := pynone, attrs := [] }
    else
      { s with nativeValue := r.get "rawTAF", attrs := tafAttrs fromTS r }

/-- `_update_state` dispatched by the sensor's feed type. -/
def updateState (feed : FeedType) (parseDT : String → Option String)
    (fromTS : Int → Option String) (s : SensorState) : SensorState :=
  match feed with
  | .metar => metarUpdateState parseDT s
  | .taf => tafUpdateState fromTS s

/-- The search loop of `AvWeatherSensor._update_from_data_list`
(sensor.py lines 139-144): the first record whose `icaoId` equals the
cell's canonical code (Python `==`: a non-string value never equals a
string). -/
def findStation (icao : String) : List Record → Option Record
  | [] => none
  | r :: rs => if r.get "icaoId" == pystr icao then some r else findStation icao rs

/-- The spec's `apply(record-or-absent)`: store the record (or absence)
in `_data` and recompute the derived state (`_update_state`). -/
def applyRecord (feed : FeedType) (parseDT : String → Option String)
    (fromTS : Int → Option String) (s : SensorState) (rec : Option Record) : SensorState :=
  updateState feed parseDT fromTS { s with data := rec }

/-- `AvWeatherSensor._update_from_data_list` (sensor.py lines 137-147):
store the first matching record and update, or store `None` and
update when no record matches. -/
def updateFromDataList (feed : FeedType) (parseDT : String → Option String)
    (fromTS : Int → Option String) (icao : String) (s : SensorState)
    (dataList : List Record) : SensorState :=
  match findStation icao dataList with
  | some r => applyRecord feed parseDT fromTS s (some r)
  | none => applyRecord feed parseDT fromTS s none

/-- The parsed body of an HTTP 200 response (`await response.json()`):
either a JSON list of station records or something else. -/
inductive JsonBody where
  | jlist : List Record → JsonBody
  | jother : PyVal → JsonBody
  deriving Repr

/-- Every outcome of the outbound HTTP request distinguished by
`AviationWeatherApi._async_fetch_data` (api.py lines 25-84). -/
inductive HttpResponse where
  | ok : JsonBody → HttpResponse
  | noContent : HttpResponse
  | badRequest : String → HttpResponse
  | rateLimited : HttpResponse
  | otherStatus : Nat → String → HttpResponse
  | timedOut : HttpResponse
  | connectionError : HttpResponse
  | clientError : HttpResponse
  | unexpectedError : HttpResponse
  deriving Repr

/-- `AviationWeatherApi._async_fetch_data` (api.py lines 20-84) as a
function of the response the provider produced.  Every branch of the
Python function either returns the parsed list (200 with a list body)
or logs and returns `[]`; no branch re-raises, so the embedding is a
total function into `List Record`. -/
def asyncFetchData : HttpResponse → List Record
  | .ok (.jlist rs) => rs
  | .ok (.jother _) => []
  | .noContent => []
  | .badRequest _ => []
  | .rateLimited => []
  | .otherStatus _ _ => []
  | .timedOut => []
  | .connectionError => []
  | .clientError => []
  | .unexpectedError => []

/-- One outbound fetch: the endpoint chosen by feed type
(`async_get_metar_data`/`async_get_taf_data`) and the `ids` parameter
it carried. -/
structure FetchCall where
  feed : FeedType
  ids : String
  deriving DecidableEq, Repr

/-- The provider, as the records that a fetch against a given feed
endpoint with a given `ids` string returns (already run through
`_async_fetch_data`, so failures appear as `[]`). -/
abbrev Net := FeedType → String → List Record

/-- One registered sensor entity: its canonical uppercase code
(`self._icao_code`), its feed type (its concrete subclass), and its
mutable state. -/
structure Entity where
  icao : String
  feed : FeedType
  state : SensorState
  deriving DecidableEq, Repr

/-- `MetarSensor.async_update_weather` / `TafSensor.async_update_weather`
(sensor.py lines 192-200 and 291-299): skip when a feed filter is
present and differs from this sensor's feed; otherwise fetch **this
sensor's own single code** and reconcile.  Returns the updated entity
and the fetch calls it issued. -/
def asyncUpdateWeather (parseDT : String → Option String)
    (fromTS : Int → Option String) (net : Net) (feedArg : Option FeedType)
    (e : Entity) : Entity × List FetchCall :=
  let skip : Bool :=
    match feedArg with
    | some f => f != e.feed
    | none => false
  if skip then (e, [])
  else
    ({ e with state := updateFromDataList e.feed parseDT fromTS e.icao e.state (net e.feed e.icao) },
     [{ feed := e.feed, ids := e.icao }])

/-- `hass.data[DOMAIN]["entities"]`: a dict from the configured code
(as entered, stripped) to the list of entities for that airport. -/
abbrev EntityRegistry := List (String × List Entity)

/-- Python `key in dict` / `dict[key]` on the entity registry. -/
def lookupEntities (reg : EntityRegistry) (k : String) : Option (List Entity) :=
  (reg.find? (fun p => p.1 == k)).map (fun p => p.2)

/-- The per-entity update loop of the service handler, over one list of
entities, collecting the fetch calls in order. -/
def updateEntities (parseDT : String → Option String) (fromTS : Int → Option String)
    (net : Net) (feedArg : Option FeedType) :
    List Entity → List Entity × List FetchCall
  | [] => ([], [])
  | e :: es =>
    let r := asyncUpdateWeather parseDT fromTS net feedArg e
    let rest := updateEntities parseDT fromTS net feedArg es
    (r.1 :: rest.1, r.2 ++ rest.2)

/-- The "update all" arm: every entity list in the registry, in
registry order. -/
def updateRegistryAll (parseDT : String → Option String) (fromTS : Int → Option String)
    (net : Net) (feedArg : Option FeedType) :
    EntityRegistry → EntityRegistry × List FetchCall
  | [] => ([], [])
  | (k, es) :: rest =>
    let r := updateEntities parseDT fromTS net feedArg es
    let r2 := updateRegistryAll parseDT fromTS net feedArg rest
    ((k, r.1) :: r2.1, r.2 ++ r2.2)

/-- Outcome of one `update_weather` service call. -/
inductive ServiceResult where
  | ok : ServiceResult
  | unknownAirport : ServiceResult
  deriving DecidableEq, Repr

/-- `async_handle_update_weather` (custom_components/av_weather/__init__.py
lines 35-64), for a system with its entity registry in place: resolve
the target (a named airport — uppercased first — or everything), then
update each resolved entity, which fetches per entity.  An unknown
airport is logged ("No entities found for ICAO code") and the handler
returns with nothing updated and nothing fetched. -/
def asyncHandleUpdateWeather (parseDT : String → Option String)
    (fromTS : Int → Option String) (net : Net) (reg : EntityRegistry)
    (icaoArg : Option String) (feedArg : Option FeedType) :
    EntityRegistry × List FetchCall × ServiceResult :=
  match icaoArg with
  | some c =>
    let cU := strUpper c
    match lookupEntities reg cU with
    | some es =>
      let r := updateEntities parseDT fromTS net feedArg es
      (reg.map (fun p => if p.1 == cU then (p.1, r.1) else p), r.2, .ok)
    | none => (reg, [], .unknownAirport)
  | none =>
    let r := updateRegistryAll parseDT fromTS net feedArg reg
    (r.1, r.2, .ok)

/-- All entities of the registry, in update order. -/
def allEntities : EntityRegistry → List Entity
  | [] => []
  | (_, es) :: rest => es ++ allEntities rest

/-- A config entry as created by the flow: its unique id (set only by
the import step), the `icao_codes` string stored under
`CONF_ICAO_CODES`, and the selected feeds under `CONF_FEEDS`. -/
structure ConfigEntryData where
  uniqueId : Option String
  icaoCodes : String
  feeds : List FeedType
  deriving DecidableEq, Repr

/-- Outcome of `async_step_import`. -/
inductive ImportResult where
  | created : ImportResult
  | abortedAlreadyConfigured : ImportResult
  deriving DecidableEq, Repr

/-- `AvWeatherConfigFlow.async_step_import` (config_flow.py lines
133-145): set the airport code as unique id, abort when an existing
entry already carries that unique id (`_abort_if_unique_id_configured`;
an entry whose unique id is unset never matches), else create the
entry. -/
def asyncStepImport (entries : List ConfigEntryData) (icao : String)
    (feeds : List FeedType) : List ConfigEntryData × ImportResult :=
  if entries.any (fun e => e.uniqueId == some icao) then
    (entries, .abortedAlreadyConfigured)
  else
    (entries ++ [{ uniqueId := some icao, icaoCodes := icao, feeds := feeds }], .created)

/-- `AvWeatherConfigFlow.async_step_user` (config_flow.py lines 59-105)
after successful validation: create an entry for the first code
directly — with **no** unique id and no duplicate check — and run an
import-style flow for every later code.  The "already configured, skipping"
loop only logs: its `continue` targets the inner `for entry in
self._async_current_entries()` loop, so no import is ever skipped
there.  The `[]` case is unreachable (validation rejects an empty code
list). -/
def asyncStepUser (entries : List ConfigEntryData) (codes : List String)
    (feeds : List FeedType) : List ConfigEntryData :=
  match codes with
  | [] => entries
  | c :: rest =>
    rest.foldl (fun acc ic => (asyncStepImport acc ic feeds).1)
      (entries ++ [{ uniqueId := none, icaoCodes := c, feeds := feeds }])

/-- Helper for `splitCodes`: split a character list on commas. -/
def splitCommaAux : List Char → List Char → List (List Char)
  | [], acc => [acc.reverse]
  | c :: cs, acc =>
    if c = ',' then acc.reverse :: splitCommaAux cs []
    else splitCommaAux cs (c :: acc)

/-- Strip leading and trailing whitespace from a character list. -/
def trimChars (cs : List Char) : List Char :=
  ((cs.dropWhile Char.isWhitespace).reverse.dropWhile Char.isWhitespace).reverse

/-- `icao_codes.split(",")` with the per-code `.strip()` of
sensor.py lines 92-93 (character-wise, kept kernel-computable). -/
def splitCodes (s : String) : List String :=
  (splitCommaAux s.data []).map (fun cs => ⟨trimChars cs⟩)

/-- The (airport, feed) cells that `sensor.async_setup_entry`
(sensor.py lines 90-110) creates for one config entry: for each code
in the entry, a METAR cell when METAR is among the feeds and a TAF
cell when TAF is (the entity canonicalizes its code to uppercase). -/
def entryCells (e : ConfigEntryData) : List (String × FeedType) :=
  (splitCodes e.icaoCodes).flatMap (fun c =>
    (if FeedType.metar ∈ e.feeds then [(strUpper c, FeedType.metar)] else []) ++
    (if FeedType.taf ∈ e.feeds then [(strUpper c, FeedType.taf)] else []))

/-- All cells registered across a list of config entries. -/
def allCells (entries : List ConfigEntryData) : List (String × FeedType) :=
  entries.flatMap entryCells

/-! Concrete fixtures for witnesses and counterexamples. -/

/-- A datetime parser that accepts nothing (for fixtures; theorems
quantify over the parser). -/
def pdNone : String → Option String := fun _ => none

/-- An epoch converter that accepts nothing (for fixtures). -/
def ftNone : Int → Option String := fun _ => none

/-- A provider that returns no records on any fetch (for fixtures). -/
def netEmpty : Net := fun _ _ => []

/-- A freshly initialized METAR cell state. -/
def blankMetarState : SensorState :=
  { data := none, nativeValue := pynone, attrs := [], icon := "mdi:weather-partly-cloudy" }

/-! Helper lemmas about the demultiplexing search. -/

theorem findStation_of_no_match (icao : String) (rs : List Record)
    (h : ∀ r ∈ rs, r.get "icaoId" ≠ pystr icao) :
    findStation icao rs = none := by
  induction rs with
  | nil => rfl
  | cons r rs ih =>
    have hr : ¬(r.get "icaoId" == pystr icao) = true := by
      simpa using h r (List.mem_cons_self r rs)
    simp only [findStation, hr, if_neg, Bool.false_eq_true, ite_false]
    exact ih (fun q hq => h q (List.mem_cons_of_mem r hq))

theorem findStation_some (icao : String) (rs : List Record) (r : Record)
    (h : findStation icao rs = some r) :
    r ∈ rs ∧ r.get "icaoId" = pystr icao := by
  induction rs with
  | nil => simp [findStation] at h
  | cons q qs ih =>
    by_cases hq : (q.get "icaoId" == pystr icao) = true
    · simp only [findStation, hq, if_pos, Option.some.injEq] at h
      subst h
      exact ⟨List.mem_cons_self q qs, by simpa using hq⟩
    · simp only [findStation, hq, Bool.false_eq_true, ite_false] at h
      obtain ⟨hm, he⟩ := ih h
      exact ⟨List.mem_cons_of_mem q hm, he⟩

theorem findStation_isSome_iff (icao : String) (rs : List Record) :
    (findStation icao rs).isSome = true ↔ ∃ r ∈ rs, r.get "icaoId" = pystr icao := by
  constructor
  · intro h
    obtain ⟨r, hr⟩ := Option.isSome_iff_exists.mp h
    obtain ⟨hm, he⟩ := findStation_some icao rs r hr
    exact ⟨r, hm, he⟩
  · rintro ⟨r, hm, he⟩
    by_contra hn
    rw [Option.not_isSome_iff_eq_none] at hn
    induction rs with
    | nil => simp at hm
    | cons q qs ih =>
      rcases List.mem_cons.mp hm with hq | hq
      · subst hq
        simp [findStation, he] at hn
      · by_cases hqm : (q.get "icaoId" == pystr icao) = true
        · simp [findStation, hqm] at hn
        · simp only [findStation, hqm, Bool.false_eq_true, ite_false] at hn
          exact ih hq hn

theorem get_pystr_ne_nil (r : Record) (k : String) (x : String)
    (h : r.get k = pystr x) : r ≠ [] := by
  intro he
  subst he
  simp [Record.get, List.find?] at h

theorem updateState_data (feed : FeedType) (pd : String → Option String)
    (ft : Int → Option String) (s : SensorState) :
    (updateState feed pd ft s).data = s.data := by
  cases feed <;> cases hs : s.data <;>
    simp [updateState, metarUpdateState, tafUpdateState, hs] <;>
    split <;> rfl

theorem updateFromDataList_data (feed : FeedType) (pd : String → Option String)
    (ft : Int → Option String) (icao : String) (s : SensorState) (rs : List Record) :
    (updateFromDataList feed pd ft icao s rs).data = findStation icao rs := by
  unfold updateFromDataList
  cases hf : findStation icao rs <;>
    simp [applyRecord, updateState_data, hf]

/-! The per-feed fetch-call accounting of a full-registry service call. -/

theorem updateEntities_calls (pd : String → Option String) (ft : Int → Option String)
    (net : Net) (es : List Entity) :
    (updateEntities pd ft net none es).2 =
      es.map (fun e => { feed := e.feed, ids := e.icao : FetchCall }) := by
  induction es with
  | nil => rfl
  | cons e es ih => simp [updateEntities, asyncUpdateWeather, ih]

theorem updateRegistryAll_calls (pd : String → Option String) (ft : Int → Option String)
    (net : Net) (reg : EntityRegistry) :
    (updateRegistryAll pd ft net none reg).2 =
      (allEntities reg).map (fun e => { feed := e.feed, ids := e.icao : FetchCall }) := by
  induction reg with
  | nil => rfl
  | cons p rest ih =>
    obtain ⟨k, es⟩ := p
    simp [updateRegistryAll, allEntities, updateEntities_calls, ih]

/-- The registry of the C1 counterexample: two airports, METAR only. -/
def cexRegistry : EntityRegistry :=
  [("NZAA", [{ icao := "NZAA", feed := FeedType.metar, state := blankMetarState }]),
   ("NZWN", [{ icao := "NZWN", feed := FeedType.metar, state := blankMetarState }])]

/-- C1 counterexample: with airports NZAA and NZWN registered for the
single feed type METAR, a `refresh(ALL)` service call issues **two**
fetches, one per airport, each carrying a single code — not one batched
fetch per configured feed type carrying "NZAA,NZWN" as the claim
states. -/
theorem refresh_all_per_airport_cex :
    (asyncHandleUpdateWeather pdNone ftNone netEmpty cexRegistry none none).2.1 =
      [{ feed := FeedType.metar, ids := "NZAA" }, { feed := FeedType.metar, ids := "NZWN" }] ∧
    (asyncHandleUpdateWeather pdNone ftNone netEmpty cexRegistry none none).2.1 ≠
      [{ feed := FeedType.metar, ids := "NZAA,NZWN" }] := by
  constructor
  · rfl
  · decide

/-- C1 (amended): a single `refresh(ALL)` service invocation issues
exactly one fetch call per registered entity — one per (airport, feed
type) cell, in registry order, each carrying only that entity's own
airport code — and completes without error.  (The one-batched-call-per-
feed-type behavior exists only in the initial setup fetch of
`sensor.async_setup_entry`, not in `refresh`.) -/
theorem refresh_all_one_fetch_per_entity (pd : String → Option String)
    (ft : Int → Option String) (net : Net) (reg : EntityRegistry) :
    (asyncHandleUpdateWeather pd ft net reg none none).2.1 =
      (allEntities reg).map (fun e => { feed := e.feed, ids := e.icao : FetchCall }) ∧
    (asyncHandleUpdateWeather pd ft net reg none none).2.2 = ServiceResult.ok := by
  constructor
  · simp [asyncHandleUpdateWeather, updateRegistryAll_calls]
  · rfl

/-- C2: `_async_fetch_data` maps every outcome other than a 200
response with a list body to the empty record list — a non-list 200
body, HTTP 204, 400, 429, any other status, a timeout, a connection
failure, a client error, or an unexpected exception — and never
re-raises (the embedding is total); a non-empty result arises only
from a 200 response with a list body, which is returned verbatim. -/
theorem fetch_failures_yield_empty (resp : HttpResponse) :
    (asyncFetchData resp ≠ [] →
      ∃ rs, resp = HttpResponse.ok (JsonBody.jlist rs) ∧ asyncFetchData resp = rs) ∧
    (∀ v, asyncFetchData (HttpResponse.ok (JsonBody.jother v)) = []) ∧
    asyncFetchData HttpResponse.noContent = [] ∧
    (∀ t, asyncFetchData (HttpResponse.badRequest t) = []) ∧
    asyncFetchData HttpResponse.rateLimited = [] ∧
    (∀ c t, asyncFetchData (HttpResponse.otherStatus c t) = []) ∧
    asyncFetchData HttpResponse.timedOut = [] ∧
    asyncFetchData HttpResponse.connectionError = [] ∧
    asyncFetchData HttpResponse.clientError = [] ∧
    asyncFetchData HttpResponse.unexpectedError = [] := by
  refine ⟨?_, fun v => rfl, rfl, fun t => rfl, rfl, fun c t => rfl, rfl, rfl, rfl, rfl⟩
  intro h
  match resp with
  | .ok (.jlist rs) => exact ⟨rs, rfl, rfl⟩
  | .ok (.jother v) => exact absurd rfl h
  | .noContent => exact absurd rfl h
  | .badRequest t => exact absurd rfl h
  | .rateLimited => exact absurd rfl h
  | .otherStatus c t => exact absurd rfl h
  | .timedOut => exact absurd rfl h
  | .connectionError => exact absurd rfl h
  | .clientError => exact absurd rfl h
  | .unexpectedError => exact absurd rfl h

/-- The derived-attribute computation selected by feed type (the
`_update_state` present-record branch of each subclass). -/
def derivedAttrs (feed : FeedType) (pd : String → Option String)
    (ft : Int → Option String) (r : Record) : Attrs :=
  match feed with
  | .metar => metarAttrs pd r
  | .taf => tafAttrs ft r

/-- A TAF update never touches the icon (there is no icon code in
`TafSensor._update_state`), so a TAF cell's icon stays at the default
set in `__init__`. -/
theorem tafUpdateState_icon (ft : Int → Option String) (s : SensorState) :
    (tafUpdateState ft s).icon = s.icon := by
  cases hs : s.data
  · simp [tafUpdateState, hs]
  · simp only [tafUpdateState, hs]
    split <;> rfl

/-- A sample METAR record for witnesses. -/
def recNZAA : Record :=
  [("icaoId", pystr "NZAA"), ("rawOb", pystr "NZAA 092300Z AUTO"),
   ("fltCat", pystr "VFR"), ("temp", pyint 17)]

/-- C3: per-cell partial-batch reconciliation: a cell whose code
matches no record of the returned batch transitions to absent
(`_data = None`, empty attributes, unavailable) — it never retains its
prior record — while a cell whose code is matched stores the matched
record and recomputes its derived attributes from it. -/
theorem partial_batch_reconciliation (feed : FeedType) (pd : String → Option String)
    (ft : Int → Option String) (icao : String) (s : SensorState)
    (records : List Record) :
    ((∀ r ∈ records, r.get "icaoId" ≠ pystr icao) →
      (updateFromDataList feed pd ft icao s records).data = none ∧
      (updateFromDataList feed pd ft icao s records).attrs = [] ∧
      (updateFromDataList feed pd ft icao s records).available = false) ∧
    (∀ rec, findStation icao records = some rec →
      (updateFromDataList feed pd ft icao s records).data = some rec ∧
      (updateFromDataList feed pd ft icao s records).attrs = derivedAttrs feed pd ft rec ∧
      (updateFromDataList feed pd ft icao s records).available = true) := by
  constructor
  · intro h
    have hf : findStation icao records = none := findStation_of_no_match icao records h
    unfold updateFromDataList
    rw [hf]
    cases feed <;>
      simp [applyRecord, updateState, metarUpdateState, tafUpdateState, SensorState.available]
  · intro rec hf
    have hid := (findStation_some icao records rec hf).2
    have hne : rec ≠ [] := get_pystr_ne_nil rec "icaoId" icao hid
    have hemp : rec.isEmpty = false := by
      simpa [List.isEmpty_iff] using hne
    unfold updateFromDataList
    rw [hf]
    cases feed <;>
      simp [applyRecord, updateState, metarUpdateState, tafUpdateState,
        SensorState.available, derivedAttrs, hemp]

/-- C3 witness: a batch of one NZAA record applied to an NZWN cell and
to an NZAA cell. -/
theorem partial_batch_reconciliation_witness :
    ((updateFromDataList FeedType.metar pdNone ftNone "NZWN" blankMetarState [recNZAA]).data = none ∧
     (updateFromDataList FeedType.metar pdNone ftNone "NZWN" blankMetarState [recNZAA]).attrs = [] ∧
     (updateFromDataList FeedType.metar pdNone ftNone "NZWN" blankMetarState [recNZAA]).available = false) ∧
    ((updateFromDataList FeedType.metar pdNone ftNone "NZAA" blankMetarState [recNZAA]).data = some recNZAA ∧
     (updateFromDataList FeedType.metar pdNone ftNone "NZAA" blankMetarState [recNZAA]).attrs =
       derivedAttrs FeedType.metar pdNone ftNone recNZAA ∧
     (updateFromDataList FeedType.metar pdNone ftNone "NZAA" blankMetarState [recNZAA]).available = true) := by
  constructor
  · exact (partial_batch_reconciliation FeedType.metar pdNone ftNone "NZWN"
      blankMetarState [recNZAA]).1 (by decide)
  · exact (partial_batch_reconciliation FeedType.metar pdNone ftNone "NZAA"
      blankMetarState [recNZAA]).2 recNZAA (by decide)

/-- The C4 counterexample record: its station id equals the cell's
canonical code `"NZAA"` under case-insensitive comparison, but not as
a string. -/
def recLowerNzaa : Record :=
  [("icaoId", pystr "nzaa"), ("rawOb", pystr "NZAA 092300Z AUTO")]

/-- C4 counterexample: a record whose `icaoId` is `"nzaa"` — equal to
the cell's canonical code `"NZAA"` up to case — is **not** matched by
the demultiplexing step (`station_data.get("icaoId") == self._icao_code`
is exact string equality), so the NZAA cell is set to absent instead of
receiving the record. -/
theorem lowercase_record_not_matched_cex :
    strUpper "nzaa" = "NZAA" ∧
    (updateFromDataList FeedType.metar pdNone ftNone "NZAA" blankMetarState [recLowerNzaa]).data = none ∧
    (updateFromDataList FeedType.metar pdNone ftNone "NZAA" blankMetarState [recLowerNzaa]).available = false := by
  refine ⟨by decide, by decide, by decide⟩

/-- C4 (amended): the demultiplexing match is case-sensitive: a cell
becomes available precisely when some record's `icaoId` equals the
cell's canonical uppercase code **exactly as a string**; a record whose
id matches only case-insensitively is not found and the cell is set to
absent. -/
theorem station_match_case_sensitive (feed : FeedType) (pd : String → Option String)
    (ft : Int → Option String) (icao : String) (s : SensorState)
    (records : List Record) :
    (updateFromDataList feed pd ft icao s records).available = true ↔
      ∃ r ∈ records, r.get "icaoId" = pystr icao := by
  unfold SensorState.available
  rw [updateFromDataList_data]
  exact findStation_isSome_iff icao records

/-- C4 witness: the exactly-matching record is found. -/
theorem station_match_case_sensitive_witness :
    (updateFromDataList FeedType.metar pdNone ftNone "NZAA" blankMetarState [recNZAA]).available = true :=
  (station_match_case_sensitive FeedType.metar pdNone ftNone "NZAA" blankMetarState
    [recNZAA]).mpr ⟨recNZAA, by decide, by decide⟩

/-- C5: applying absent resets the cell regardless of prior state:
unavailable, empty attribute mapping, state value cleared, and the
feed's default display icon in place (the METAR branch restores it
explicitly; a TAF update never modifies the icon, which therefore
stays at its `__init__` default); applying absent again yields the
same state (idempotent reset). -/
theorem apply_absent_resets (feed : FeedType) (pd : String → Option String)
    (ft : Int → Option String) (s : SensorState)
    (hicon : feed = FeedType.taf → s.icon = defaultIcon FeedType.taf) :
    (applyRecord feed pd ft s none).available = false ∧
    (applyRecord feed pd ft s none).attrs = [] ∧
    (applyRecord feed pd ft s none).nativeValue = pynone ∧
    (applyRecord feed pd ft s none).icon = defaultIcon feed ∧
    applyRecord feed pd ft (applyRecord feed pd ft s none) none =
      applyRecord feed pd ft s none := by
  cases feed
  · simp [applyRecord, updateState, metarUpdateState, defaultIcon, SensorState.available]
  · have h := hicon rfl
    simp [applyRecord, updateState, tafUpdateState, defaultIcon, SensorState.available, h]

/-- C5 witness: a TAF cell full of prior state, reset by absent. -/
theorem apply_absent_resets_witness :
    (applyRecord FeedType.taf pdNone ftNone
      { data := some recNZAA, nativeValue := pystr "old", attrs := [("weather", pystr "RA")],
        icon := "mdi:weather-cloudy-clock" } none).available = false ∧
    (applyRecord FeedType.taf pdNone ftNone
      { data := some recNZAA, nativeValue := pystr "old", attrs := [("weather", pystr "RA")],
        icon := "mdi:weather-cloudy-clock" } none).attrs = [] ∧
    (applyRecord FeedType.taf pdNone ftNone
      { data := some recNZAA, nativeValue := pystr "old", attrs := [("weather", pystr "RA")],
        icon := "mdi:weather-cloudy-clock" } none).nativeValue = pynone ∧
    (applyRecord FeedType.taf pdNone ftNone
      { data := some recNZAA, nativeValue := pystr "old", attrs := [("weather", pystr "RA")],
        icon := "mdi:weather-cloudy-clock" } none).icon = defaultIcon FeedType.taf ∧
    applyRecord FeedType.taf pdNone ftNone
      (applyRecord FeedType.taf pdNone ftNone
        { data := some recNZAA, nativeValue := pystr "old", attrs := [("weather", pystr "RA")],
          icon := "mdi:weather-cloudy-clock" } none) none =
      applyRecord FeedType.taf pdNone ftNone
        { data := some recNZAA, nativeValue := pystr "old", attrs := [("weather", pystr "RA")],
          icon := "mdi:weather-cloudy-clock" } none :=
  apply_absent_resets FeedType.taf pdNone ftNone
    { data := some recNZAA, nativeValue := pystr "old", attrs := [("weather", pystr "RA")],
      icon := "mdi:weather-cloudy-clock" } (fun _ => rfl)

/-- C6: applying the same record twice is the same as applying it once:
the whole resulting cell state — in particular the derived attribute
mapping — is a pure function of the applied record, rebuilt from
scratch on each update with no accumulation from the previous one. -/
theorem apply_record_pure (feed : FeedType) (pd : String → Option String)
    (ft : Int → Option String) (s : SensorState) (r : Record) :
    applyRecord feed pd ft (applyRecord feed pd ft s (some r)) (some r) =
      applyRecord feed pd ft s (some r) ∧
    (applyRecord feed pd ft (applyRecord feed pd ft s (some r)) (some r)).attrs =
      (applyRecord feed pd ft s (some r)).attrs := by
  have h : applyRecord feed pd ft (applyRecord feed pd ft s (some r)) (some r) =
      applyRecord feed pd ft s (some r) := by
    cases feed <;> by_cases hr : r.isEmpty <;>
      simp [applyRecord, updateState, metarUpdateState, tafUpdateState, hr]
  exact ⟨h, by rw [h]⟩

/-- C7: a refresh naming an airport whose uppercased code has no entry
in the entity registry leaves the registry untouched, issues no fetch
call, and reports the unknown airport (the logged warning path of the
service handler); nothing is raised — the handler returns a value in
every case. -/
theorem unknown_airport_no_fetch (pd : String → Option String)
    (ft : Int → Option String) (net : Net) (reg : EntityRegistry) (c : String)
    (feedArg : Option FeedType)
    (h : lookupEntities reg (strUpper c) = none) :
    asyncHandleUpdateWeather pd ft net reg (some c) feedArg =
      (reg, [], ServiceResult.unknownAirport) := by
  simp [asyncHandleUpdateWeather, h]

/-- C7 witness: `refresh(icao_code="ZZZZ")` against the two-airport
registry. -/
theorem unknown_airport_no_fetch_witness :
    lookupEntities cexRegistry (strUpper "ZZZZ") = none ∧
    asyncHandleUpdateWeather pdNone ftNone netEmpty cexRegistry (some "ZZZZ") none =
      (cexRegistry, [], ServiceResult.unknownAirport) :=
  ⟨by decide,
   unknown_airport_no_fetch pdNone ftNone netEmpty cexRegistry "ZZZZ" none (by decide)⟩

/-- C8 (code bug): registering the same (airport, feed type) pair twice
succeeds instead of failing with DuplicateRegistration.  Two successive
user-flow submissions of `"NZAA"` with feeds `[METAR]` each create an
entry: the user step creates its first-code entry with no duplicate
check and no unique id (its "already configured, skipping" loop never
skips — the `continue` targets the inner loop — and
`_abort_if_unique_id_configured` can never match an entry that has no
unique id), so the registry ends up holding the (NZAA, METAR) cell
twice. -/
theorem duplicate_registration_succeeds_bug :
    allCells (asyncStepUser (asyncStepUser [] ["NZAA"] [FeedType.metar])
        ["NZAA"] [FeedType.metar]) =
      [("NZAA", FeedType.metar), ("NZAA", FeedType.metar)] ∧
    ¬ (allCells (asyncStepUser (asyncStepUser [] ["NZAA"] [FeedType.metar])
        ["NZAA"] [FeedType.metar])).Nodup := by
  constructor
  · decide
  · decide

/-- A second NZAA record, to appear later in the batch than the first. -/
def recNZAAdup : Record :=
  [("icaoId", pystr "NZAA"), ("rawOb", pystr "NZAA 100000Z DUPLICATE")]

/-- C10: when several records of the batch match the cell's code, the
cell stores the **first** matching record in batch order; the later
duplicates are ignored (the search loop returns on its first hit). -/
theorem first_match_wins (feed : FeedType) (pd : String → Option String)
    (ft : Int → Option String) (icao : String) (s : SensorState)
    (pre : List Record) (r1 : Record) (rest : List Record)
    (hpre : ∀ r ∈ pre, r.get "icaoId" ≠ pystr icao)
    (h1 : r1.get "icaoId" = pystr icao) :
    (updateFromDataList feed pd ft icao s (pre ++ r1 :: rest)).data = some r1 := by
  rw [updateFromDataList_data]
  induction pre with
  | nil => simp [findStation, h1]
  | cons q qs ih =>
    have hq : ¬(q.get "icaoId" == pystr icao) = true := by
      simpa using hpre q (List.mem_cons_self q qs)
    simp only [List.cons_append, findStation, hq, Bool.false_eq_true, ite_false]
    exact ih (fun p hp => hpre p (List.mem_cons_of_mem q hp))

/-- C10 witness: a batch with a non-matching record, then two NZAA
records; the first NZAA record is stored. -/
theorem first_match_wins_witness :
    (updateFromDataList FeedType.metar pdNone ftNone "NZAA" blankMetarState
      ([recLowerNzaa] ++ recNZAA :: [recNZAAdup])).data = some recNZAA :=
  first_match_wins FeedType.metar pdNone ftNone "NZAA" blankMetarState
    [recLowerNzaa] recNZAA [recNZAAdup] (by decide) (by decide)

/-! Lookup lemmas for the attribute blocks (used to settle the
timestamp/passthrough behavior of the derived attributes). -/

theorem lookupAttr_cloudBlock (r : Record) (a : Attrs) (k : String)
    (h : k ≠ "cloud_coverage") :
    lookupAttr (cloudBlock r a) k = lookupAttr a k := by
  unfold cloudBlock
  repeat' split
  all_goals first
    | rfl
    | exact lookupAttr_setAttr_ne a "cloud_coverage" k _ h

theorem lookupAttr_weatherBlock (r : Record) (a : Attrs) (k : String)
    (h : k ≠ "weather") :
    lookupAttr (weatherBlock r a) k = lookupAttr a k := by
  unfold weatherBlock
  split
  · exact lookupAttr_setAttr_ne a "weather" k _ h
  · rfl

theorem lookupAttr_latlonBlock (r : Record) (a : Attrs) (k : String)
    (hlat : k ≠ "latitude") (hlon : k ≠ "longitude") :
    lookupAttr (latlonBlock r a) k = lookupAttr a k := by
  unfold latlonBlock
  split
  · rw [lookupAttr_setAttr_ne _ "longitude" k _ hlon,
      lookupAttr_setAttr_ne _ "latitude" k _ hlat]
  · rfl

theorem lookupAttr_elevBlock (r : Record) (a : Attrs) (k : String)
    (h : k ≠ "elevation_m") :
    lookupAttr (elevBlock r a) k = lookupAttr a k := by
  unfold elevBlock
  split
  · exact lookupAttr_setAttr_ne a "elevation_m" k _ h
  · rfl

theorem lookupAttr_issueBlock (r : Record) (a : Attrs) (k : String)
    (h : k ≠ "issue_time") :
    lookupAttr (issueBlock r a) k = lookupAttr a k := by
  unfold issueBlock
  split
  · exact lookupAttr_setAttr_ne a "issue_time" k _ h
  · rfl

theorem lookupAttr_tafTimeAttr_ne (ftc : Int → Option String) (a : Attrs)
    (k k' : String) (v : PyVal) (h : k' ≠ k) :
    lookupAttr (tafTimeAttr ftc a k v) k' = lookupAttr a k' := by
  unfold tafTimeAttr
  repeat' split
  all_goals first
    | rfl
    | exact lookupAttr_setAttr_ne a k k' _ h

theorem lookupAttr_metarBasicAttrs_obs (r : Record) (a : Attrs) :
    lookupAttr (metarBasicAttrs r a) "observation_time" =
      lookupAttr a "observation_time" := by
  simp [metarBasicAttrs, lookupAttr_setAttr_ne]

theorem lookupAttr_metarBasicAttrs_temp (r : Record) (a : Attrs) :
    lookupAttr (metarBasicAttrs r a) "temperature_c" = some (r.get "temp") := by
  simp [metarBasicAttrs, lookupAttr_setAttr_ne, lookupAttr_setAttr_self]

theorem lookupAttr_metarBasicAttrs_wspd (r : Record) (a : Attrs) :
    lookupAttr (metarBasicAttrs r a) "wind_speed_kts" = some (r.get "wspd") := by
  simp [metarBasicAttrs, lookupAttr_setAttr_ne, lookupAttr_setAttr_self]

theorem lookupAttr_metarBasicAttrs_altim (r : Record) (a : Attrs) :
    lookupAttr (metarBasicAttrs r a) "altimeter_in_hg" = some (r.get "altim") := by
  simp [metarBasicAttrs, lookupAttr_setAttr_ne, lookupAttr_setAttr_self]

theorem lookupAttr_metarAttrs_obs (pd : String → Option String) (r : Record)
    (os : String) (hos : r.get "reportTime" = pystr os) (hne : os ≠ "") :
    lookupAttr (metarAttrs pd r) "observation_time" =
      some (pystr (match pd os with | some iso => iso | none => os)) := by
  unfold metarAttrs
  rw [lookupAttr_elevBlock _ _ _ (by decide),
    lookupAttr_latlonBlock _ _ _ (by decide) (by decide),
    lookupAttr_weatherBlock _ _ _ (by decide),
    lookupAttr_cloudBlock _ _ _ (by decide),
    lookupAttr_metarBasicAttrs_obs]
  unfold metarObsAttrs
  rw [hos]
  have hemp : os.isEmpty = false := by
    cases h : os.isEmpty
    · rfl
    · exact absurd (by simpa [String.isEmpty_iff] using h) hne
  simp only [PyVal.truthy, hemp, Bool.not_false, if_true]
  cases hpd : pd os <;> simp [lookupAttr]

theorem lookupAttr_tafAttrs_validFrom (ftc : Int → Option String) (r : Record)
    (n : Int) (hn : r.get "validTimeFrom" = pyint n) (hne : n ≠ 0) :
    lookupAttr (tafAttrs ftc r) "valid_time_from" =
      some (match ftc n with | some iso => pystr iso | none => pyint n) := by
  simp only [tafAttrs]
  rw [lookupAttr_elevBlock _ _ _ (by decide),
    lookupAttr_latlonBlock _ _ _ (by decide) (by decide),
    lookupAttr_tafTimeAttr_ne _ _ _ _ _ (by decide)]
  unfold tafTimeAttr
  rw [hn]
  have ht : ((pyint n).truthy) = true := by simpa [PyVal.truthy] using hne
  simp only [ht, if_true]
  cases hf : ftc n <;> simp [lookupAttr_setAttr_self]

theorem lookupAttr_tafAttrs_validTo (ftc : Int → Option String) (r : Record)
    (n : Int) (hn : r.get "validTimeTo" = pyint n) (hne : n ≠ 0) :
    lookupAttr (tafAttrs ftc r) "valid_time_to" =
      some (match ftc n with | some iso => pystr iso | none => pyint n) := by
  simp only [tafAttrs]
  rw [lookupAttr_elevBlock _ _ _ (by decide),
    lookupAttr_latlonBlock _ _ _ (by decide) (by decide)]
  unfold tafTimeAttr
  rw [hn]
  have ht : ((pyint n).truthy) = true := by simpa [PyVal.truthy] using hne
  simp only [ht, if_true]
  cases hf : ftc n <;> simp [lookupAttr_setAttr_self]

theorem lookupAttr_tafAttrs_validFrom_falsy (ftc : Int → Option String) (r : Record)
    (hf : (r.get "validTimeFrom").truthy = false) :
    lookupAttr (tafAttrs ftc r) "valid_time_from" = none := by
  simp only [tafAttrs]
  rw [lookupAttr_elevBlock _ _ _ (by decide),
    lookupAttr_latlonBlock _ _ _ (by decide) (by decide),
    lookupAttr_tafTimeAttr_ne _ _ _ _ _ (by decide)]
  unfold tafTimeAttr
  simp only [hf, Bool.false_eq_true, if_false]
  rw [lookupAttr_issueBlock _ _ _ (by decide)]
  simp [lookupAttr]

/-- An epoch converter that succeeds on every input (for the C9
fixtures: it shows the skipped conversion is due to truthiness, not to
a conversion failure). -/
def ftIso : Int → Option String := fun _ => some "1970-01-01T00:00:00+00:00"

/-- The C9 counterexample record: it carries `validTimeFrom`, with the
epoch-zero value `0`. -/
def tafEpochZeroRec : Record :=
  [("icaoId", pystr "NZAA"), ("rawTAF", pystr "TAF NZAA 092300Z"), ("validTimeFrom", pyint 0)]

/-- C9 counterexample: a TAF record carrying `validTimeFrom = 0` (epoch
zero) yields **no** `valid_time_from` derived attribute at all — even
with a converter that succeeds on every input — because `if
valid_from:` is falsy at `0` and the whole conversion block is
skipped; the claim's "in every case a record carrying these fields
yields a derived attribute for them" fails. -/
theorem epoch_zero_valid_time_cex :
    Record.get tafEpochZeroRec "validTimeFrom" = pyint 0 ∧
    lookupAttr (tafAttrs ftIso tafEpochZeroRec) "valid_time_from" = none :=
  ⟨by decide, by decide⟩

/-- C9 (amended): numeric fields pass through into the derived
attributes unconverted (e.g. `temp`, `wspd`, `altim` appear verbatim);
`reportTime` is parsed to a structured timestamp with the raw string
kept when unparsable, and the TAF `validTimeFrom`/`validTimeTo` epoch
values are converted with the raw numeric kept on conversion failure —
but an attribute is derived only when the carried value is truthy (a
non-empty string, a non-zero number); a falsy value (e.g. epoch `0`)
yields no attribute for that field. -/
theorem derived_time_attrs (pd : String → Option String) (ft : Int → Option String)
    (r : Record) :
    (∀ os : String, r.get "reportTime" = pystr os → os ≠ "" →
      lookupAttr (metarAttrs pd r) "observation_time" =
        some (pystr (match pd os with | some iso => iso | none => os))) ∧
    lookupAttr (metarAttrs pd r) "temperature_c" = some (r.get "temp") ∧
    lookupAttr (metarAttrs pd r) "wind_speed_kts" = some (r.get "wspd") ∧
    lookupAttr (metarAttrs pd r) "altimeter_in_hg" = some (r.get "altim") ∧
    (∀ n : Int, r.get "validTimeFrom" = pyint n → n ≠ 0 →
      lookupAttr (tafAttrs ft r) "valid_time_from" =
        some (match ft n with | some iso => pystr iso | none => pyint n)) ∧
    (∀ n : Int, r.get "validTimeTo" = pyint n → n ≠ 0 →
      lookupAttr (tafAttrs ft r) "valid_time_to" =
        some (match ft n with | some iso => pystr iso | none => pyint n)) ∧
    ((r.get "validTimeFrom").truthy = false →
      lookupAttr (tafAttrs ft r) "valid_time_from" = none) := by
  refine ⟨fun os hos hne => lookupAttr_metarAttrs_obs pd r os hos hne,
    ?_, ?_, ?_,
    fun n hn hne => lookupAttr_tafAttrs_validFrom ft r n hn hne,
    fun n hn hne => lookupAttr_tafAttrs_validTo ft r n hn hne,
    fun hf => lookupAttr_tafAttrs_validFrom_falsy ft r hf⟩
  · rw [show metarAttrs pd r = elevBlock r (latlonBlock r (weatherBlock r (cloudBlock r
      (metarBasicAttrs r (metarObsAttrs pd r))))) from rfl,
      lookupAttr_elevBlock _ _ _ (by decide),
      lookupAttr_latlonBlock _ _ _ (by decide) (by decide),
      lookupAttr_weatherBlock _ _ _ (by decide),
      lookupAttr_cloudBlock _ _ _ (by decide)]
    exact lookupAttr_metarBasicAttrs_temp r _
  · rw [show metarAttrs pd r = elevBlock r (latlonBlock r (weatherBlock r (cloudBlock r
      (metarBasicAttrs r (metarObsAttrs pd r))))) from rfl,
      lookupAttr_elevBlock _ _ _ (by decide),
      lookupAttr_latlonBlock _ _ _ (by decide) (by decide),
      lookupAttr_weatherBlock _ _ _ (by decide),
      lookupAttr_cloudBlock _ _ _ (by decide)]
    exact lookupAttr_metarBasicAttrs_wspd r _
  · rw [show metarAttrs pd r = elevBlock r (latlonBlock r (weatherBlock r (cloudBlock r
      (metarBasicAttrs r (metarObsAttrs pd r))))) from rfl,
      lookupAttr_elevBlock _ _ _ (by decide),
      lookupAttr_latlonBlock _ _ _ (by decide) (by decide),
      lookupAttr_weatherBlock _ _ _ (by decide),
      lookupAttr_cloudBlock _ _ _ (by decide)]
    exact lookupAttr_metarBasicAttrs_altim r _

/-- A METAR record with a report time and numeric fields (C9 witness). -/
def recMetarTime : Record :=
  [("icaoId", pystr "NZAA"), ("reportTime", pystr "2024-01-09T23:00:00Z"),
   ("temp", pyint 17), ("wspd", pyint 10), ("altim", pyint 1013)]

/-- A TAF record with non-zero validity epochs (C9 witness). -/
def recTafTimes : Record :=
  [("icaoId", pystr "NZAA"), ("rawTAF", pystr "TAF NZAA"),
   ("validTimeFrom", pyint 1700000000), ("validTimeTo", pyint 1700086400)]

/-- C9 witness: with a parser that fails, the raw report time is kept;
numeric `temp` passes through; with a converter that succeeds, the
epoch fields convert. -/
theorem derived_time_attrs_witness :
    lookupAttr (metarAttrs pdNone recMetarTime) "observation_time" =
      some (pystr "2024-01-09T23:00:00Z") ∧
    lookupAttr (metarAttrs pdNone recMetarTime) "temperature_c" = some (pyint 17) ∧
    lookupAttr (tafAttrs ftIso recTafTimes) "valid_time_from" =
      some (pystr "1970-01-01T00:00:00+00:00") ∧
    lookupAttr (tafAttrs ftIso recTafTimes) "valid_time_to" =
      some (pystr "1970-01-01T00:00:00+00:00") :=
  ⟨(derived_time_attrs pdNone ftIso recMetarTime).1 "2024-01-09T23:00:00Z" (by decide) (by decide),
   (derived_time_attrs pdNone ftIso recMetarTime).2.1,
   (derived_time_attrs pdNone ftIso recTafTimes).2.2.2.2.1 1700000000 (by decide) (by decide),
   (derived_time_attrs pdNone ftIso recTafTimes).2.2.2.2.2.1 1700086400 (by decide) (by decide)⟩
